import Mathlib

/-!
Verification development for the `fresher` auto-rebuild tool
(github.com/c9845/fresher).  The definitions below are a shallow embedding of
the Go sources:

  * `config/config.go` (the current revision, whose methods `validate`,
    `IsDirectoryToIgnore`, `IsRebuildExtension`, `IsExtensionToWatch` are the
    ones exercised by `runner3`),
  * `runner3/runner3.go` (`Watch`, `start`, `build`, `run`, `Start`).

Machine integers do not overflow in any embedded computation
(`BuildDelayMilliseconds` is `int64`, only compared against 0), so Go `int64`
is modelled as `Int`.  Paths are modelled on a Unix platform, where the path
separator is the slash, so `filepath.FromSlash` is the identity.
-/

set_option maxRecDepth 4000

namespace Fresher

/-! ### String and path helpers (Go standard library, as used by the sources) -/

/-- Whitespace test used by the model of `strings.TrimSpace`.  Go trims
Unicode white space; the configuration values of interest are ASCII, so the
ASCII white-space characters are modelled. -/
def isSpaceChar (c : Char) : Bool :=
  c = ' ' || c = '\t' || c = '\n' || c = '\r'

/-- Character-list core of `strings.TrimSpace`: drop white space from both
ends. -/
def trimChars (cs : List Char) : List Char :=
  ((cs.dropWhile isSpaceChar).reverse.dropWhile isSpaceChar).reverse

/-- Model of Go `strings.TrimSpace`. -/
def trimGo (s : String) : String :=
  String.mk (trimChars s.data)

/-- Character-list prefix test: `hasPrefixChars p s` holds when `p` is an
initial segment of `s`. -/
def hasPrefixChars : List Char → List Char → Bool
  | [], _ => true
  | _ :: _, [] => false
  | p :: ps, c :: cs => p = c && hasPrefixChars ps cs

/-- Model of Go `strings.HasPrefix s p` (does `s` begin with `p`?). -/
def goHasPrefix (s p : String) : Bool :=
  hasPrefixChars p.data s.data

/-- Split a character list at every slash; used by the model of
`filepath.Clean`. -/
def splitSlash : List Char → List (List Char)
  | [] => [[]]
  | c :: rest =>
    match splitSlash rest with
    | [] => [[]]
    | g :: gs => if c = '/' then [] :: g :: gs else (c :: g) :: gs

/-- One step of the lexical simplification of `filepath.Clean`: `out` is the
stack of kept components (in reverse), `c` the next raw component. -/
def cleanFold (rooted : Bool) (out : List String) (c : String) : List String :=
  if c = "" || c = "." then out
  else if c = ".." then
    match out with
    | [] => if rooted then [] else [".."]
    | a :: rest => if a = ".." then c :: a :: rest else rest
  else c :: out

/-- Join path components with slashes. -/
def joinSlash : List String → String
  | [] => ""
  | [p] => p
  | p :: q :: rest => p ++ "/" ++ joinSlash (q :: rest)

/-- Model of Go `path/filepath.Clean` on a Unix platform: purely lexical
simplification that drops `.` and empty components, resolves `..` against
earlier components, and maps an empty result to `.` (or `/` when rooted). -/
def cleanGo (path : String) : String :=
  if path = "" then "."
  else
    let rooted := hasPrefixChars ['/'] path.data
    let comps := (splitSlash path.data).map (fun cs => String.mk cs)
    let outs := (comps.foldl (cleanFold rooted) []).reverse
    let body := joinSlash outs
    if rooted then "/" ++ body
    else if body = "" then "." else body

/-- Model of Go `filepath.Join` restricted to two components: join the
non-empty components with a slash and `Clean` the result. -/
def joinGo (a b : String) : String :=
  if a = "" && b = "" then ""
  else if a = "" then cleanGo b
  else if b = "" then cleanGo a
  else cleanGo (a ++ "/" ++ b)

/-- Model of Go `filepath.FromSlash` on a Unix platform, where the separator
already is the slash: the identity. -/
def fromSlash (s : String) : String := s

/-- Helper for `extOf`: walk the reversed character list; `acc` holds the
characters already passed, in forward order.  Stops with `""` at a path
separator, returns the dot-suffix at the first dot, exactly like the loop in
Go `filepath.Ext`. -/
def extOfAux : List Char → List Char → String
  | [], _ => ""
  | c :: rest, acc =>
    if c = '/' then ""
    else if c = '.' then String.mk (c :: acc)
    else extOfAux rest (c :: acc)

/-- Model of Go `filepath.Ext`: the suffix beginning at the final dot in the
final path element, empty when there is no dot. -/
def extOf (path : String) : String :=
  extOfAux path.data.reverse []

/-! ### The configuration data model (`config/config.go`) -/

/-- The configuration record, `type File struct` of `config/config.go`.
`BuildDelayMilliseconds` is `int64` in Go and modelled as `Int` (it is only
ever compared against 0). -/
structure File where
  WorkingDir : String
  EntryPoint : String
  TempDir : String
  ExtensionsToWatch : List String
  NoRebuildExtensions : List String
  DirectoriesToIgnore : List String
  BuildDelayMilliseconds : Int
  BuildName : String
  BuildLogFilename : String
  GoTags : String
  GoLdflags : String
  GoTrimpath : Bool
  Verbose : Bool
  usingBuiltInDefaults : Bool
deriving DecidableEq, Repr

/-- Go `newDefaultConfig()` from `config/config.go`: the built-in default
configuration (`TempDir` is `filepath.Join(".", "tmp")`). -/
def newDefaultConfig : File where
  WorkingDir := "."
  EntryPoint := "."
  TempDir := joinGo "." "tmp"
  ExtensionsToWatch := [".go", ".html"]
  NoRebuildExtensions := [".html"]
  DirectoriesToIgnore := ["tmp", "node_modules", ".git", ".vscode"]
  BuildDelayMilliseconds := 100
  BuildName := "fresher-build"
  BuildLogFilename := "fresher-build-errors.log"
  GoTags := ""
  GoLdflags := "-s -w"
  GoTrimpath := true
  Verbose := false
  usingBuiltInDefaults := true

/-- Go `isStringInSlice(haystack, needle)` from `config/config.go`: linear
scan with string equality. -/
def isStringInSlice : List String → String → Bool
  | [], _ => false
  | v :: rest, needle => if v = needle then true else isStringInSlice rest needle

/-- Go `(*File).IsDirectoryToIgnore(path)`: true when some entry of
`DirectoriesToIgnore` is a string prefix of `path`
(`strings.HasPrefix(path, d)` inside the loop). -/
def File.IsDirectoryToIgnore (conf : File) (path : String) : Bool :=
  conf.DirectoriesToIgnore.any (fun d => goHasPrefix path d)

/-- Go `(*File).IsRebuildExtension(extension)`: true when the extension is
not listed in `NoRebuildExtensions`. -/
def File.IsRebuildExtension (conf : File) (extension : String) : Bool :=
  !(isStringInSlice conf.NoRebuildExtensions extension)

/-- Go `(*File).IsExtensionToWatch(extension)`: membership in
`ExtensionsToWatch`. -/
def File.IsExtensionToWatch (conf : File) (extension : String) : Bool :=
  isStringInSlice conf.ExtensionsToWatch extension

/-! ### `validate` (`config/config.go`)

The Go method mutates `conf` in place and returns an `error`; the model takes
and returns the record, with `Except` for the error.  The Go code also logs
warnings (including a "missing leading period, added" message that never
actually adds the period); logging has no effect on the data and is omitted. -/

/-- The trim-and-deduplicate loop used by `validate` for
`ExtensionsToWatch`. -/
def dedupTrimFold (exts : List String) : List String :=
  exts.foldl
    (fun acc e =>
      let e := trimGo e
      if isStringInSlice acc e then acc else acc ++ [e]) []

/-- One iteration of the `NoRebuildExtensions` loop of `validate`.  The pair
is (current `conf.ExtensionsToWatch`, accumulated `validNoRebuildExtensionss`):
trim the extension, skip duplicates, append it to `ExtensionsToWatch` when it
is missing there, then record it as valid. -/
def noRebuildStep (p : List String × List String) (extension : String) :
    List String × List String :=
  let extension := trimGo extension
  if isStringInSlice p.snd extension then p
  else
    let watch := if isStringInSlice p.fst extension then p.fst
                 else p.fst ++ [extension]
    (watch, p.snd ++ [extension])

/-- The trim-clean-and-deduplicate loop used by `validate` for
`DirectoriesToIgnore`. -/
def dedupCleanDirsFold (dirs : List String) : List String :=
  dirs.foldl
    (fun acc d =>
      let d := cleanGo (trimGo d)
      if isStringInSlice acc d then acc else acc ++ [d]) []

/-- The `ExtensionsToWatch` list as it stands when the `NoRebuildExtensions`
loop of `validate` begins: trimmed and deduplicated, with the default list
substituted when nothing is left. -/
def watchStart (conf : File) : List String :=
  let watch0 := dedupTrimFold conf.ExtensionsToWatch
  if watch0 = [] then newDefaultConfig.ExtensionsToWatch else watch0

/-- The `NoRebuildExtensions` loop of `validate`, started on `watchStart`:
yields the final (`ExtensionsToWatch`, `NoRebuildExtensions`) pair. -/
def noRebuildPass (conf : File) : List String × List String :=
  conf.NoRebuildExtensions.foldl noRebuildStep (watchStart conf, [])

/-- The field updates `validate` performs once its two error checks have
passed.  The Go method performs them sequentially on independent fields of
`conf`; they are collected in one record update. -/
def validateBody (conf : File) : File :=
  let defaults := newDefaultConfig
  { conf with
    WorkingDir := fromSlash (trimGo conf.WorkingDir)
    EntryPoint := trimGo conf.EntryPoint
    TempDir :=
      if fromSlash (trimGo conf.TempDir) = "" then defaults.TempDir
      else fromSlash (trimGo conf.TempDir)
    ExtensionsToWatch := (noRebuildPass conf).fst
    NoRebuildExtensions := (noRebuildPass conf).snd
    DirectoriesToIgnore := dedupCleanDirsFold conf.DirectoriesToIgnore
    BuildDelayMilliseconds :=
      if conf.BuildDelayMilliseconds < 0 then defaults.BuildDelayMilliseconds
      else conf.BuildDelayMilliseconds
    BuildName :=
      if trimGo conf.BuildName = "" then defaults.BuildName
      else conf.BuildName
    BuildLogFilename :=
      if trimGo conf.BuildLogFilename = "" then defaults.BuildLogFilename
      else conf.BuildLogFilename }

/-- Go `(*File).validate()` from `config/config.go`: sanitize and validate a
parsed configuration.  It errors out when `WorkingDir` or `EntryPoint`
trims to empty; otherwise it returns the sanitized configuration. -/
def validate (conf : File) : Except String File :=
  if fromSlash (trimGo conf.WorkingDir) = "" then
    Except.error "config: WorkingDir not set. Typically this should be set to ."
  else if trimGo conf.EntryPoint = "" then
    Except.error "config: EntryPoint not set. Typically this should be set to ."
  else
    Except.ok (validateBody conf)

/-! ### The event debouncer (`runner3.go`, goroutine inside `Watch`)

The goroutine keeps `var lastEvent fsnotify.Event` and a 50ms timer.  Per raw
event: a pure-`Chmod` event is skipped; an event whose extension is not
watched is skipped; otherwise the event is remembered and the timer restarted.
When the timer fires, the remembered event is sent once on `eventsChan`.
A quiet window is modelled as the finite list of raw events delivered between
two timer expiries; the timer fires at the end of the window exactly when some
surviving event restarted it. -/

/-- File-change operation kinds of `fsnotify.Op`.  Events carrying a single
operation bit are modelled; the debouncer compares the whole `Op` against
`fsnotify.Chmod` with `==`. -/
inductive FsOp
  | create
  | write
  | remove
  | rename
  | chmod
deriving DecidableEq, Repr

/-- A raw `fsnotify.Event`: file name and operation. -/
structure FsEvent where
  name : String
  op : FsOp
deriving DecidableEq, Repr

/-- State of the debouncing goroutine: the remembered `lastEvent` (none
before any qualifying event arrived) and whether the 50ms timer was restarted
during the current window. -/
structure DebounceState where
  lastEvent : Option FsEvent
  timerArmed : Bool
deriving DecidableEq, Repr

/-- Handling of one raw event in the `case event := <-watcher.Events` branch:
skip on `Chmod`, skip on a non-watched extension, otherwise remember the
event and restart the timer. -/
def debounceStep (cfg : File) (s : DebounceState) (e : FsEvent) : DebounceState :=
  if e.op = FsOp.chmod then s
  else if !(cfg.IsExtensionToWatch (extOf e.name)) then s
  else ⟨some e, true⟩

/-- An event survives the two drop tests of the debouncer: not metadata-only
(`Chmod`) and carrying a watched extension. -/
def isQualifyingEvent (cfg : File) (e : FsEvent) : Bool :=
  if e.op = FsOp.chmod then false
  else cfg.IsExtensionToWatch (extOf e.name)

/-- The Triggers emitted for one quiet window: fold the per-event handler
over the window; when the timer fires (`case <-timer.C`) the remembered
event is sent once on `eventsChan`. -/
def debounceWindow (cfg : File) (es : List FsEvent) : List FsEvent :=
  let final := es.foldl (debounceStep cfg) ⟨none, false⟩
  if final.timerArmed then final.lastEvent.toList else []

/-! ### The build orchestrator (`runner3.go`: `buildCmdRunning`,
`killBuildingChan`, `build`, `start`)

`killBuildingChan` is `make(chan bool, 1)`: a single-slot buffered channel.
`buildCmdRunning` is set to `true` just before `cmd.Start()` in `build` and
reset to `false` only on the code path where `cmd.Wait()` returned `nil`;
the early returns for killed and failed builds leave it `true`. -/

/-- Outcome of one `build()` call as consumed by `start()`:
`killed` is `errBuildKilled`, `failed` covers both `errBuildFailed`
(stderr output with exit 0) and a non-nil `cmd.Wait()` error. -/
inductive BuildResult
  | succeeded
  | failed
  | killed
deriving DecidableEq, Repr

/-- The shared state read and written by the watcher goroutine and `build`:
the `buildCmdRunning` flag, and whether the single buffer slot of
`killBuildingChan` currently holds an unconsumed request. -/
structure OrchState where
  buildCmdRunning : Bool
  killSlot : Bool
deriving DecidableEq, Repr

/-- A send on the capacity-1 `killBuildingChan` with no receiver present:
fills the empty slot, or blocks the sender while the slot is occupied.  The
second component reports whether the sender blocked. -/
def sendKillRequest (s : OrchState) : OrchState × Bool :=
  if s.killSlot then (s, true)
  else ({ s with killSlot := true }, false)

/-- The cancellation check in the timer branch of the watcher goroutine:
`if buildCmdRunning && rebuildRequired { killBuildingChan <- true }` where
`rebuildRequired` is `IsRebuildExtension` of the emitted event.  Returns the
new state and whether the debouncer goroutine blocked on the send. -/
def watcherKillCheck (s : OrchState) (rebuildRequired : Bool) : OrchState × Bool :=
  if s.buildCmdRunning && rebuildRequired then sendKillRequest s
  else (s, false)

/-- Result of one `build()` call: the shared state afterwards, the returned
outcome, and whether `saveBuildErrorsLog` was invoked. -/
structure BuildOutcome where
  state : OrchState
  result : BuildResult
  logSaved : Bool
deriving DecidableEq, Repr

/-- One complete `build()` call.  Environment: `killDuringChild` says a
cancellation request is sent on `killBuildingChan` while the child build
process is running; `exitOk` says the build tool exits with status 0 when it
is not killed; `stderrNonempty` says the captured stderr buffer is non-empty.

The killer goroutine (spawned before `cmd.Start()`) receives either the
request already buffered in the slot or the one sent during the build, and
then kills the child, so `cmd.Wait()` returns a non-nil error whenever the
kill was delivered to the running child.  Per the source:
the `err != nil && buildKilled` path returns `errBuildKilled` and the plain
`err != nil` path returns the wait error, both leaving `buildCmdRunning`
true and both without writing the error log; only after a nil wait is
`buildCmdRunning` reset, and the log is written only on the
nonempty-stderr-after-nil-wait path (`errBuildFailed`). -/
def buildRun (s : OrchState) (killDuringChild exitOk stderrNonempty : Bool) :
    BuildOutcome :=
  let killerGets := s.killSlot || killDuringChild
  let slotAfter := s.killSlot && killDuringChild
  let waitErr := killerGets || !exitOk
  if waitErr && killerGets then
    ⟨⟨true, slotAfter⟩, BuildResult.killed, false⟩
  else if waitErr then
    ⟨⟨true, slotAfter⟩, BuildResult.failed, false⟩
  else if stderrNonempty then
    ⟨⟨false, slotAfter⟩, BuildResult.failed, true⟩
  else
    ⟨⟨false, slotAfter⟩, BuildResult.succeeded, false⟩

/-! ### One iteration of the orchestrator loop (`start()` in `runner3.go`) -/

/-- Observable effects of one iteration of the event loop in `start()`. -/
structure IterEffects where
  slept : Bool
  deletedLog : Bool
  buildInvoked : Bool
  exitedCode : Option Nat
  sentStop : Bool
  ranBinary : Bool
  startedAfter : Bool
deriving DecidableEq, Repr

/-- One iteration of the loop in `start()`, for the event named `eventName`,
given the `started` flag and the outcome the environment gives to `build()`
when it is invoked.  Per the source: `rebuildRequired` is computed first;
only on the rebuild path does the loop sleep `BuildDelayMilliseconds`,
delete the error log and call `build()`.  `errBuildKilled` and other build
errors set `buildSuccessful = false`; a non-killed error with `!started`
calls `os.Exit(1)`.  A rebuild-required iteration without success `continue`s
(previous binary keeps running); otherwise `stopChan <- true` is sent when
`started`, `run()` is called, and `started` becomes true. -/
def startIteration (cfg : File) (started : Bool) (eventName : String)
    (buildResult : BuildResult) : IterEffects :=
  let rebuildRequired := cfg.IsRebuildExtension (extOf eventName)
  if rebuildRequired then
    match buildResult with
    | BuildResult.killed =>
      ⟨true, true, true, none, false, false, started⟩
    | BuildResult.failed =>
      if !started then ⟨true, true, true, some 1, false, false, started⟩
      else ⟨true, true, true, none, false, false, started⟩
    | BuildResult.succeeded =>
      ⟨true, true, true, none, started, true, true⟩
  else
    ⟨false, false, false, none, started, true, true⟩

/-- The synthetic startup event injected by `Start()`:
`fsnotify.Event{Name: "/", Op: fsnotify.Write}`. -/
def syntheticStartupEvent : FsEvent :=
  ⟨"/", FsOp.write⟩

/-- The list of events `Start()` injects before blocking: exactly one. -/
def startupInjectedEvents : List FsEvent :=
  [syntheticStartupEvent]

/-! ### The process supervisor (`run()` and the stop path of `start()`)

When `started` holds and a new binary is to be run, `start()` sends on the
unbuffered `stopChan`; the goroutine of the previous `run()` receives it and
calls `cmd.Process.Kill()`.  Nothing calls `cmd.Wait()` on the old process.
The synchronization the code establishes between the four relevant events is:
the rendezvous on `stopChan` precedes both the subsequent `run()` of the new
binary (same goroutine as the send) and the `Kill` of the old process (same
goroutine as the receive), and the old process exits only after the kill
signal.  Any interleaving of the four events respecting exactly these three
orderings can occur. -/

/-- The four observable events of one stop-then-start handover. -/
inductive SupEvent
  | rendezvous
  | killOld
  | startNew
  | exitOld
deriving DecidableEq, Repr

/-- Position of the first occurrence of `e` in `t` (length of `t` when
absent). -/
def posOf : List SupEvent → SupEvent → Nat
  | [], _ => 0
  | a :: rest, e => if a = e then 0 else posOf rest e + 1

/-- The schedules of one handover that the code's synchronization permits:
each event once, the `stopChan` rendezvous before the new start and before
the kill, and the kill before the old process exit.  No ordering between
`startNew` and `exitOld` is imposed, because no code path waits for the old
process to exit. -/
def validStopStartSchedule (t : List SupEvent) : Bool :=
  t.count SupEvent.rendezvous == 1 &&
  t.count SupEvent.killOld == 1 &&
  t.count SupEvent.startNew == 1 &&
  t.count SupEvent.exitOld == 1 &&
  decide (posOf t SupEvent.rendezvous < posOf t SupEvent.startNew) &&
  decide (posOf t SupEvent.rendezvous < posOf t SupEvent.killOld) &&
  decide (posOf t SupEvent.killOld < posOf t SupEvent.exitOld)

/-! ### Helper lemmas -/

/-- The per-event handler keeps the state exactly when the event does not
qualify, and arms the timer on the event otherwise. -/
theorem debounceStep_eq (cfg : File) (s : DebounceState) (e : FsEvent) :
    debounceStep cfg s e =
      if isQualifyingEvent cfg e then ⟨some e, true⟩ else s := by
  unfold debounceStep isQualifyingEvent
  by_cases h1 : e.op = FsOp.chmod
  · simp [h1]
  · by_cases h2 : cfg.IsExtensionToWatch (extOf e.name) = true
    · simp [h1, h2]
    · simp [h1, h2]

/-- Searching an appended list finds the first hit of the left part, else of
the right part. -/
theorem find?_append_first {α : Type} (p : α → Bool) (l₁ l₂ : List α) :
    (l₁ ++ l₂).find? p =
      match l₁.find? p with
      | some x => some x
      | none => l₂.find? p := by
  induction l₁ with
  | nil => simp
  | cons a t ih =>
    by_cases h : p a
    · simp [List.find?, h]
    · simp [List.find?, h, ih]

/-- Folding the debouncer over a window from any state: if some event of the
window qualifies, the final state remembers the last such event with the
timer armed; otherwise the state is unchanged. -/
theorem debounce_foldl (cfg : File) (es : List FsEvent) (s : DebounceState) :
    es.foldl (debounceStep cfg) s =
      match es.reverse.find? (isQualifyingEvent cfg) with
      | some e => ⟨some e, true⟩
      | none => s := by
  induction es generalizing s with
  | nil => simp
  | cons a t ih =>
    rw [List.foldl_cons, ih, List.reverse_cons, find?_append_first]
    by_cases h : isQualifyingEvent cfg a
    · cases ht : t.reverse.find? (isQualifyingEvent cfg) <;>
        simp [List.find?, h, debounceStep_eq]
    · cases ht : t.reverse.find? (isQualifyingEvent cfg) <;>
        simp [List.find?, h, debounceStep_eq]

/-- The head of a filtered list is the first hit of a search. -/
theorem head?_filter_eq_find? {α : Type} (p : α → Bool) (l : List α) :
    (l.filter p).head? = l.find? p := by
  induction l with
  | nil => rfl
  | cons a t ih => by_cases h : p a <;> simp [List.filter_cons, List.find?, h, ih]

/-- The last element surviving a filter is the first hit of a reversed
search. -/
theorem filter_getLast?_eq_reverse_find? {α : Type} (p : α → Bool) (l : List α) :
    (l.filter p).getLast? = l.reverse.find? p := by
  rw [← List.head?_reverse, ← List.filter_reverse, head?_filter_eq_find?]

/-- The linear scan `isStringInSlice` decides list membership. -/
theorem isStringInSlice_iff (l : List String) (s : String) :
    isStringInSlice l s = true ↔ s ∈ l := by
  induction l with
  | nil => simp [isStringInSlice]
  | cons v rest ih =>
    by_cases h : v = s
    · simp [isStringInSlice, h]
    · simp [isStringInSlice, h, ih, Ne.symm h]

/-- One iteration of the no-rebuild loop only ever extends the watch list. -/
theorem noRebuildStep_watch_mono (p : List String × List String) (e x : String)
    (h : x ∈ p.fst) : x ∈ (noRebuildStep p e).fst := by
  unfold noRebuildStep
  by_cases h1 : isStringInSlice p.snd (trimGo e) = true
  · simpa [h1] using h
  · by_cases h2 : isStringInSlice p.fst (trimGo e) = true
    · simpa [h1, h2] using h
    · simp [h1, h2]
      exact Or.inl h

/-- One iteration of the no-rebuild loop preserves the invariant that every
recorded no-rebuild extension is in the watch list. -/
theorem noRebuildStep_inv (p : List String × List String) (e : String)
    (h : ∀ x ∈ p.snd, x ∈ p.fst) :
    ∀ x ∈ (noRebuildStep p e).snd, x ∈ (noRebuildStep p e).fst := by
  intro x hx
  by_cases h1 : isStringInSlice p.snd (trimGo e) = true
  · rw [noRebuildStep] at hx ⊢
    simp only [h1, if_pos] at hx ⊢
    exact h x hx
  · rw [noRebuildStep] at hx
    simp only [h1] at hx
    simp only [if_neg, Bool.not_eq_true] at hx
    have hx2 : x ∈ p.snd ∨ x = trimGo e := by
      simpa using List.mem_append.mp hx
    rcases hx2 with hmem | rfl
    · exact noRebuildStep_watch_mono p e x (h x hmem)
    · rw [noRebuildStep]
      simp only [h1]
      by_cases h2 : isStringInSlice p.fst (trimGo e) = true
      · simp only [h2, if_pos, if_neg, Bool.not_eq_true]
        simpa [h1, h2] using (isStringInSlice_iff _ _).mp h2
      · simp [h1, h2]

/-- Folding the no-rebuild loop preserves the invariant that every recorded
no-rebuild extension is in the watch list. -/
theorem noRebuildFold_inv (exts : List String) :
    ∀ p : List String × List String,
      (∀ x ∈ p.snd, x ∈ p.fst) →
      ∀ x ∈ (exts.foldl noRebuildStep p).snd, x ∈ (exts.foldl noRebuildStep p).fst := by
  induction exts with
  | nil => intro p h; simpa using h
  | cons a t ih => intro p h; exact ih _ (noRebuildStep_inv p a h)

/-! ### The claims -/

/-- C1.  Debouncer coalescing: over any finite quiet window of raw watch
events, the emitted Triggers are exactly the last qualifying event of the
window (as a one-element list), and the empty list when every event of the
window is dropped as metadata-only (`Chmod`) or as carrying an unwatched
extension.  Hence exactly one Trigger per window with a qualifying event, it
carries the last qualifying event, and no earlier event of the window is
ever emitted. -/
theorem debounceWindow_emits_last_qualifying (cfg : File) (es : List FsEvent) :
    debounceWindow cfg es =
      ((es.filter (isQualifyingEvent cfg)).getLast?).toList := by
  unfold debounceWindow
  rw [debounce_foldl, filter_getLast?_eq_reverse_find?]
  cases h : es.reverse.find? (isQualifyingEvent cfg) <;> simp [h]

/-- C9.  The ignored-directory check is a raw string path-prefix test:
`IsDirectoryToIgnore` returns true exactly when some entry of
`DirectoriesToIgnore` is a string prefix of the path; in particular the
sibling directory `tmpfoo` is over-matched under the default configuration,
which ignores `tmp`. -/
theorem isDirectoryToIgnore_prefix_semantics (conf : File) (path : String) :
    (conf.IsDirectoryToIgnore path = true ↔
      ∃ d ∈ conf.DirectoriesToIgnore, goHasPrefix path d = true)
    ∧ newDefaultConfig.IsDirectoryToIgnore "tmpfoo" = true := by
  constructor
  · simp [File.IsDirectoryToIgnore, List.any_eq_true]
  · decide

/-- C10.  Invariant established by `validate`: whenever `validate` returns
without error, every extension in the resulting `NoRebuildExtensions` is
also contained in the resulting `ExtensionsToWatch` (the loop appends any
no-rebuild extension missing from the watch list). -/
theorem validate_noRebuild_subset_watch (conf conf' : File)
    (h : validate conf = Except.ok conf') :
    ∀ e ∈ conf'.NoRebuildExtensions, e ∈ conf'.ExtensionsToWatch := by
  unfold validate at h
  split at h
  · exact Except.noConfusion h
  · split at h
    · exact Except.noConfusion h
    · injection h with h
      subst h
      intro e he
      have hbody : (validateBody conf).NoRebuildExtensions = (noRebuildPass conf).snd := rfl
      have hbody2 : (validateBody conf).ExtensionsToWatch = (noRebuildPass conf).fst := rfl
      rw [hbody] at he
      rw [hbody2]
      exact noRebuildFold_inv conf.NoRebuildExtensions (watchStart conf, [])
        (by intro x hx; cases hx) e he

/-- Concrete configuration for the C10 witness: `.html` is a no-rebuild
extension but is missing from the watch list. -/
def c10TestConf : File :=
  { newDefaultConfig with
    ExtensionsToWatch := [".go"]
    NoRebuildExtensions := [".html"] }

/-- The configuration `validate` produces for `c10TestConf`. -/
def c10TestConfValidated : File :=
  (validate c10TestConf).toOption.getD c10TestConf

/-- Witness for C10: on the concrete configuration, `validate` succeeds and
the no-rebuild extension `.html` has been added to the watch list. -/
theorem validate_noRebuild_subset_watch_witness :
    validate c10TestConf = Except.ok c10TestConfValidated
    ∧ ".html" ∈ c10TestConfValidated.NoRebuildExtensions
    ∧ ".html" ∈ c10TestConfValidated.ExtensionsToWatch :=
  ⟨rfl, by decide,
    validate_noRebuild_subset_watch c10TestConf c10TestConfValidated rfl
      ".html" (by decide)⟩

/-- C2 (counterexample).  A stale cancellation request issued while no build
is running does affect a later attempt.  Trace: attempt 1 is superseded and
killed (`buildRun s0 true ...`), which leaves `buildCmdRunning` true (the
early return in `build` skips the reset) and the killer goroutine gone; next
the watcher, between builds, passes the `buildCmdRunning && rebuildRequired`
check and parks a request in the empty slot of the buffered
`killBuildingChan`; attempt 2, with a clean exit and no fresh cancellation,
is then killed by that stale request. -/
theorem staleKillRequest_kills_later_attempt :
    (buildRun ⟨false, false⟩ true true false).result = BuildResult.killed
    ∧ (buildRun ⟨false, false⟩ true true false).state = ⟨true, false⟩
    ∧ watcherKillCheck (buildRun ⟨false, false⟩ true true false).state true
        = (⟨true, true⟩, false)
    ∧ (buildRun ⟨true, true⟩ false true false).result = BuildResult.killed
    ∧ (buildRun ⟨true, true⟩ false true false).result ≠ BuildResult.succeeded := by
  decide

/-- C2 (amended).  A cancellation delivered while the build child process is
running always ends that attempt in Killed, never Succeeded; when no build is
running and `buildCmdRunning` is (accurately) false, the watcher issues no
request at all, so no build attempt is affected.  However, a request sitting
in the single-slot buffer — possible because `buildCmdRunning` stays true
after killed and failed builds — kills the next build attempt. -/
theorem cancellation_only_honored_while_building (s : OrchState)
    (exitOk stderrNonempty : Bool) :
    ((buildRun s true exitOk stderrNonempty).result = BuildResult.killed
      ∧ (buildRun s true exitOk stderrNonempty).result ≠ BuildResult.succeeded)
    ∧ (s.killSlot = true →
        (buildRun s false exitOk stderrNonempty).result = BuildResult.killed)
    ∧ (∀ r : Bool, watcherKillCheck ⟨false, s.killSlot⟩ r = (⟨false, s.killSlot⟩, false)) := by
  refine ⟨⟨?_, ?_⟩, ?_, ?_⟩
  · simp [buildRun]
  · simp [buildRun]
  · intro h; simp [buildRun, h]
  · intro r; simp [watcherKillCheck]

/-- Witness for C2: at a concrete state with a buffered stale request, a
clean build with no fresh cancellation ends Killed. -/
theorem cancellation_only_honored_while_building_witness :
    (⟨true, true⟩ : OrchState).killSlot = true
    ∧ (buildRun ⟨true, true⟩ false true false).result = BuildResult.killed :=
  ⟨rfl, (cancellation_only_honored_while_building ⟨true, true⟩ true false).2.1 rfl⟩

/-- C3 (counterexample).  A schedule permitted by the code in which the new
binary starts before the old process has exited: after the rendezvous on the
unbuffered `stopChan`, the main goroutine proceeds to `run()` while the stop
goroutine calls `Kill`; nothing waits for the old process to exit, so the
exit may come after the new start — two running instances coexist in
between, and the exit is not confirmed before the start. -/
theorem newStart_before_oldExit_schedule :
    validStopStartSchedule
        [SupEvent.rendezvous, SupEvent.killOld, SupEvent.startNew, SupEvent.exitOld] = true
    ∧ posOf [SupEvent.rendezvous, SupEvent.killOld, SupEvent.startNew, SupEvent.exitOld]
          SupEvent.startNew
        < posOf [SupEvent.rendezvous, SupEvent.killOld, SupEvent.startNew, SupEvent.exitOld]
          SupEvent.exitOld := by
  decide

/-- C3 (amended).  On every handover the supervisor does block before the new
start, but only until the stop request is received on `stopChan` (the
rendezvous), not until the old process has exited; the kill of the old
process precedes its exit, while the exit itself is not awaited. -/
theorem stop_request_received_before_new_start (t : List SupEvent)
    (h : validStopStartSchedule t = true) :
    posOf t SupEvent.rendezvous < posOf t SupEvent.startNew
    ∧ posOf t SupEvent.killOld < posOf t SupEvent.exitOld := by
  unfold validStopStartSchedule at h
  simp only [Bool.and_eq_true, decide_eq_true_eq] at h
  exact ⟨h.1.1.2, h.2⟩

/-- Witness for C3: a concrete schedule in which the old process does exit
before the new start; the amended guarantees hold on it. -/
theorem stop_request_received_before_new_start_witness :
    validStopStartSchedule
        [SupEvent.rendezvous, SupEvent.killOld, SupEvent.exitOld, SupEvent.startNew] = true
    ∧ posOf [SupEvent.rendezvous, SupEvent.killOld, SupEvent.exitOld, SupEvent.startNew]
          SupEvent.rendezvous
        < posOf [SupEvent.rendezvous, SupEvent.killOld, SupEvent.exitOld, SupEvent.startNew]
          SupEvent.startNew :=
  ⟨by decide,
    (stop_request_received_before_new_start
      [SupEvent.rendezvous, SupEvent.killOld, SupEvent.exitOld, SupEvent.startNew]
      (by decide)).1⟩

/-- C4.  First-failure fatality and steady-state resilience: on a
rebuild-required event whose build fails, the process exits with code 1 when
the binary has never run (`started = false`); with a prior successful run
(`started = true`) there is no exit, no stop is sent to the running binary,
no new binary is run, and the loop returns to waiting with `started` still
true. -/
theorem buildFailure_fatal_only_before_first_run (cfg : File) (name : String)
    (h : cfg.IsRebuildExtension (extOf name) = true) :
    (startIteration cfg false name BuildResult.failed).exitedCode = some 1
    ∧ (startIteration cfg true name BuildResult.failed).exitedCode = none
    ∧ (startIteration cfg true name BuildResult.failed).sentStop = false
    ∧ (startIteration cfg true name BuildResult.failed).ranBinary = false
    ∧ (startIteration cfg true name BuildResult.failed).startedAfter = true := by
  refine ⟨?_, ?_, ?_, ?_, ?_⟩ <;> simp [startIteration, h]

/-- Witness for C4: for the default configuration and a `.go` file, a failed
first build exits with code 1 and a failed later build does not exit. -/
theorem buildFailure_fatal_only_before_first_run_witness :
    newDefaultConfig.IsRebuildExtension (extOf "main.go") = true
    ∧ (startIteration newDefaultConfig false "main.go" BuildResult.failed).exitedCode = some 1
    ∧ (startIteration newDefaultConfig true "main.go" BuildResult.failed).exitedCode = none :=
  ⟨by decide,
    (buildFailure_fatal_only_before_first_run newDefaultConfig "main.go" (by decide)).1,
    (buildFailure_fatal_only_before_first_run newDefaultConfig "main.go" (by decide)).2.1⟩

/-- C5 (code bug).  When the build tool exits non-zero with captured stderr
(`exitOk = false`, `stderrNonempty = true`) — the ordinary compile-error
case — `build` returns Failed on the early `err != nil` return without
calling `saveBuildErrorsLog`, so the error log is not persisted; only the
zero-exit-with-stderr flavor of Failed writes the log.  This contradicts the
code's own comments ("Stderr is saved to error file") and the README
("the log file where errors from `go build` will be saved"). -/
theorem failedBuild_nonzeroExit_log_not_saved :
    ((buildRun ⟨false, false⟩ false false true).result = BuildResult.failed
      ∧ (buildRun ⟨false, false⟩ false false true).logSaved = false)
    ∧ ((buildRun ⟨false, false⟩ false true true).result = BuildResult.failed
      ∧ (buildRun ⟨false, false⟩ false true true).logSaved = true) := by
  decide

/-- C6 (counterexample).  On a Trigger whose extension is a no-rebuild
extension (`.html` under the default configuration), the orchestrator does
not sleep the configured build delay at all: it classifies first and sleeps
only on the rebuild path, refuting `delay-then-classify on every Trigger`.
The rerun itself does happen without the build tool. -/
theorem noRebuildTrigger_skips_delay :
    newDefaultConfig.IsRebuildExtension (extOf "path/to/hello.html") = false
    ∧ (startIteration newDefaultConfig true "path/to/hello.html" BuildResult.succeeded).slept = false
    ∧ (startIteration newDefaultConfig true "path/to/hello.html" BuildResult.succeeded).buildInvoked = false
    ∧ (startIteration newDefaultConfig true "path/to/hello.html" BuildResult.succeeded).ranBinary = true := by
  decide

/-- C6 (amended).  On each Trigger the orchestrator first classifies the
extension; it sleeps the configured build delay exactly when a rebuild is
required (the sleep, once begun, is a plain `time.Sleep` not reset by later
events); a no-rebuild Trigger skips the delay and the build tool entirely
and goes straight to rerunning the existing binary. -/
theorem classify_then_delay_on_trigger (cfg : File) (started : Bool)
    (name : String) (res : BuildResult) :
    (startIteration cfg started name res).slept = cfg.IsRebuildExtension (extOf name)
    ∧ (cfg.IsRebuildExtension (extOf name) = false →
        (startIteration cfg started name res).buildInvoked = false
        ∧ (startIteration cfg started name res).ranBinary = true
        ∧ (startIteration cfg started name res).exitedCode = none) := by
  constructor
  · by_cases h : cfg.IsRebuildExtension (extOf name) = true
    · cases res with
      | killed => simp [startIteration, h]
      | failed => cases started <;> simp [startIteration, h]
      | succeeded => simp [startIteration, h]
    · simp only [Bool.not_eq_true] at h
      simp [startIteration, h]
  · intro h
    simp [startIteration, h]

/-- Witness for C6 (amended): evaluated at the default configuration and an
`.html` event. -/
theorem classify_then_delay_on_trigger_witness :
    (startIteration newDefaultConfig true "x.html" BuildResult.succeeded).slept
        = newDefaultConfig.IsRebuildExtension (extOf "x.html")
    ∧ (startIteration newDefaultConfig true "x.html" BuildResult.succeeded).buildInvoked = false :=
  ⟨(classify_then_delay_on_trigger newDefaultConfig true "x.html" BuildResult.succeeded).1,
    ((classify_then_delay_on_trigger newDefaultConfig true "x.html" BuildResult.succeeded).2
      (by decide)).1⟩

/-- C7 (counterexample).  The cancellation send can block the debouncer, and
a newer request is queued rather than overwriting or being ignored.  Trace:
after a killed build, `buildCmdRunning` is still true with no killer
goroutine listening; the next qualifying window parks a request in the empty
slot without blocking, and a further qualifying window then blocks the
debouncer goroutine on `killBuildingChan <- true` while the first request is
still queued. -/
theorem second_kill_request_blocks_debouncer :
    (buildRun ⟨false, false⟩ true true false).state = ⟨true, false⟩
    ∧ (watcherKillCheck ⟨true, false⟩ true).snd = false
    ∧ (watcherKillCheck ⟨true, false⟩ true).fst = ⟨true, true⟩
    ∧ (watcherKillCheck ⟨true, true⟩ true).snd = true
    ∧ (watcherKillCheck ⟨true, true⟩ true).fst.killSlot = true := by
  decide

/-- C7 (amended).  The cancellation channel is a single-slot buffer: a send
while the slot is empty never blocks the debouncer (the request is queued in
the slot); the send blocks exactly when the watcher passes its
`buildCmdRunning && rebuildRequired` check while a previous request is still
buffered; and at most one request is ever buffered. -/
theorem kill_signaling_single_slot (s : OrchState) (rebuildRequired : Bool) :
    (s.killSlot = false → (watcherKillCheck s rebuildRequired).snd = false)
    ∧ ((watcherKillCheck s rebuildRequired).snd = true ↔
        s.buildCmdRunning = true ∧ rebuildRequired = true ∧ s.killSlot = true)
    ∧ ((watcherKillCheck s rebuildRequired).fst.killSlot = true ↔
        s.killSlot = true ∨ (s.buildCmdRunning = true ∧ rebuildRequired = true)) := by
  rcases s with ⟨b, k⟩
  cases b <;> cases k <;> cases rebuildRequired <;>
    exact ⟨by decide, by decide, by decide⟩

/-- Witness for C7: with an empty slot and a build in progress, the send
does not block. -/
theorem kill_signaling_single_slot_witness :
    (⟨true, false⟩ : OrchState).killSlot = false
    ∧ (watcherKillCheck ⟨true, false⟩ true).snd = false :=
  ⟨rfl, (kill_signaling_single_slot ⟨true, false⟩ true).1 rfl⟩

/-- C8.  Synthetic startup Trigger: `Start()` injects exactly one event,
`{Name: "/", Op: Write}`; its `filepath.Ext` is empty, the empty extension
is classified rebuild-required whenever the empty string is not listed in
`NoRebuildExtensions` (it is not, in any sanely validated configuration,
and not in the default one), so the first iteration invokes the build tool
and then runs the built binary — one initial build-and-run cycle with zero
file-change events. -/
theorem synthetic_startup_trigger_builds_and_runs (cfg : File)
    (h : isStringInSlice cfg.NoRebuildExtensions "" = false) :
    startupInjectedEvents.length = 1
    ∧ extOf syntheticStartupEvent.name = ""
    ∧ cfg.IsRebuildExtension (extOf syntheticStartupEvent.name) = true
    ∧ (startIteration cfg false syntheticStartupEvent.name BuildResult.succeeded).buildInvoked = true
    ∧ (startIteration cfg false syntheticStartupEvent.name BuildResult.succeeded).ranBinary = true
    ∧ (startIteration cfg false syntheticStartupEvent.name BuildResult.succeeded).sentStop = false
    ∧ (startIteration cfg false syntheticStartupEvent.name BuildResult.succeeded).startedAfter = true := by
  have hext : extOf syntheticStartupEvent.name = "" := rfl
  have hre : cfg.IsRebuildExtension (extOf syntheticStartupEvent.name) = true := by
    rw [hext]
    simp [File.IsRebuildExtension, h]
  refine ⟨rfl, hext, hre, ?_, ?_, ?_, ?_⟩ <;> simp [startIteration, hre]

/-- Witness for C8: at the default configuration, the synthetic Trigger is
classified rebuild-required and its iteration builds and runs. -/
theorem synthetic_startup_trigger_builds_and_runs_witness :
    isStringInSlice newDefaultConfig.NoRebuildExtensions "" = false
    ∧ newDefaultConfig.IsRebuildExtension (extOf syntheticStartupEvent.name) = true
    ∧ (startIteration newDefaultConfig false syntheticStartupEvent.name
        BuildResult.succeeded).buildInvoked = true :=
  ⟨by decide,
    (synthetic_startup_trigger_builds_and_runs newDefaultConfig (by decide)).2.2.1,
    (synthetic_startup_trigger_builds_and_runs newDefaultConfig (by decide)).2.2.2.1⟩

end Fresher
